import Mathlib

/-!
Shallow embedding of the PlayView extractor (`src/main.go`), centred on
`readDatabase`: the per-page viewer-block parser, the sequential tile
stream, the compositor state and the exported artifacts.

The byte stream is a `List Nat` read through a monotone cursor; reads past
the end yield 0 (the Go code discards every read error with `_`).  JPEG
decoding is an external black box, modelled as a parameter
`dec : List Nat → Option (Nat × Nat)` returning the decoded raster's
bounds on success and `none` on failure.
-/

namespace PlayView

abbrev Bytes := List Nat

/-- Byte of the file at absolute position `p` (0 past the end, since the
Go code ignores read errors). -/
def byteAt (f : Bytes) (p : Nat) : Nat := f.getD p 0

/-- `readBytes` from main.go: `n` consecutive bytes starting at `p`. -/
def readBytes (f : Bytes) (p n : Nat) : Bytes :=
  (List.range n).map (fun k => byteAt f (p + k))

/-- `readUint32` from main.go: big-endian 32-bit read at `p`. -/
def readUint32 (f : Bytes) (p : Nat) : Nat :=
  byteAt f p * 16777216 + byteAt f (p + 1) * 65536 +
    byteAt f (p + 2) * 256 + byteAt f (p + 3)

/-- `readCompare` from main.go, as a boolean check: the bytes at `p`
equal the literal. -/
def compareOk (f : Bytes) (p : Nat) (lit : Bytes) : Bool :=
  readBytes f p lit.length == lit

/-- Relative `Seek(d, 1)` from position `p`: an attempt to move before
position 0 fails (the error is discarded) and leaves the cursor alone. -/
def seekRel (p : Nat) (d : Int) : Nat :=
  if (p : Int) + d < 0 then p else ((p : Int) + d).toNat

/-- The 16-byte-alignment step after a DualJPEG payload:
`pos % 16 ≠ 0 → Seek(16 - pos % 16, 1)`. -/
def align16 (p : Nat) : Nat :=
  if p % 16 ≠ 0 then p + (16 - p % 16) else p

/-- Big-endian encoding of a `u32`, for building concrete test files. -/
def u32 (n : Nat) : Bytes :=
  [n / 16777216 % 256, n / 65536 % 256, n / 256 % 256, n % 256]

/-- ASCII bytes of "GVEW0100JPEG0100". -/
def jpegKeyBytes : Bytes := [71, 86, 69, 87, 48, 49, 48, 48, 74, 80, 69, 71, 48, 49, 48, 48]

/-- ASCII bytes of "GVEW0100GVMP0100". -/
def gvmpKeyBytes : Bytes := [71, 86, 69, 87, 48, 49, 48, 48, 71, 86, 77, 80, 48, 49, 48, 48]

/-- ASCII bytes of "GVMP". -/
def gvmpLit : Bytes := [0x47, 0x56, 0x4D, 0x50]

/-- The "BLK_" marker literal. -/
def blkLit : Bytes := [0x42, 0x4C, 0x4B, 0x5F]

/-- The 8-byte literal opening the descriptor table. -/
def dbStartLit : Bytes := [0, 0, 0, 1, 0, 0, 0, 0]

/-- The 8-byte literal opening the payload region. -/
def imgStartLit : Bytes := [0, 0, 0, 2, 0, 0, 0, 0]

/-- How a run of `readDatabase` dies: `formatError` for the explicit
`log.Panicf` / `panic` calls carrying a diagnostic, `divideByZero` for the
unguarded integer division at `numImages := lengthDatabase / entranceLength`. -/
inductive Failure where
  | formatError (msg : String)
  | divideByZero
deriving DecidableEq, Repr

/-- `ImageInfo` from main.go: one tile descriptor. -/
structure ImageInfo where
  gridPosW : Nat
  gridPosH : Nat
  layer : Nat
  fileLength : Nat
  fileLengthPadding : Nat
  width : Nat
  height : Nat
deriving DecidableEq, Repr

/-- The configuration flags `readDatabase` consults for a single page. -/
structure Config where
  MergeImages : Bool
  TargetLayer : Int
  LoadFullImages : Bool
deriving DecidableEq, Repr

/-- The two recognised viewer keys. -/
inductive ImageType where
  | jpeg
  | gvmp
deriving DecidableEq, Repr

/-- One `draw.Draw` call onto the page's merged image:
`image.Rect(x, y, x+dx, y+dy)` for tile index `tileIndex`. -/
structure DrawOp where
  x : Nat
  y : Nat
  dx : Nat
  dy : Nat
  tileIndex : Nat
deriving DecidableEq, Repr

/-- One file written to the output directory. -/
inductive Artifact where
  | raw (page : String) (tileIndex : Nat) (bytes : Bytes)
  | tilePng (page : String) (tileIndex : Nat) (posW posH : Nat)
  | mergedPng (page : String) (width height : Nat) (draws : List DrawOp)
deriving DecidableEq, Repr

/-- The mutable state threaded through the tile loop of one page.
`decodes` counts the calls made to the external JPEG decoder. -/
structure TileState where
  pos : Nat
  handled : List (Nat × Nat)
  hasAnyImageData : Bool
  draws : List DrawOp
  artifacts : List Artifact
  warnings : List (Nat × Nat)
  decodes : Nat
deriving DecidableEq, Repr

/-- A JPEG decoder: `none` on failure, decoded bounds on success. -/
abbrev Decode := Bytes → Option (Nat × Nat)

/-- Descriptor-table parse: one entry of eight big-endian u32 fields (the
sixth is read and dropped), 32 bytes of stream. -/
def parseImageInfo (f : Bytes) (p : Nat) : ImageInfo :=
  { gridPosW := readUint32 f p
    gridPosH := readUint32 f (p + 4)
    layer := readUint32 f (p + 8)
    fileLength := readUint32 f (p + 12)
    fileLengthPadding := readUint32 f (p + 16)
    width := readUint32 f (p + 24)
    height := readUint32 f (p + 28) }

/-- The descriptor-table loop: the `paramLength == 4` test sits inside the
loop body, so it only fires when at least one entry is read. -/
def parseImages (f : Bytes) (paramLength : Nat) : Nat → Nat → Except Failure (List ImageInfo)
  | _, 0 => .ok []
  | p, n + 1 =>
    if paramLength = 4 then
      match parseImages f paramLength (p + 32) n with
      | .ok rest => .ok (parseImageInfo f p :: rest)
      | .error e => .error e
    else
      .error (.formatError "not implemented")

/-- The five `readCompare` checks of the 32-byte GVMP sub-header. -/
def gvmpHeaderOk (f : Bytes) (pos : Nat) : Bool :=
  compareOk f pos gvmpLit && compareOk f (pos + 4) [0, 0, 0, 2] &&
    compareOk f (pos + 8) [0, 0, 0, 0x20] &&
    compareOk f (pos + 24) [0, 0, 0, 0] && compareOk f (pos + 28) [0, 0, 0, 0]

/-- Extraction of one DualJPEG ("gvmp") tile payload: the 32-byte GVMP
sub-header, the hidden-area branch, the trailing skips and the 16-byte
alignment.  Returns the raw payload bytes and the cursor after alignment. -/
def extractGvmp (cfg : Config) (f : Bytes) (pos : Nat) :
    Except Failure (Bytes × Nat) :=
  if gvmpHeaderOk f pos then
    let imageLength := readUint32 f (pos + 12)
    let paddedImageLength := readUint32 f (pos + 16)
    let secondImageLength := readUint32 f (pos + 20)
    let p0 := pos + 32
    let imgLen := if cfg.LoadFullImages ∧ paddedImageLength ≠ 32 then secondImageLength else imageLength
    let p1 := if cfg.LoadFullImages ∧ paddedImageLength ≠ 32 then
        seekRel p0 ((paddedImageLength : Int) - 32) else p0
    let raw := readBytes f p1 imgLen
    let p2 := p1 + imgLen
    let p3 := if ¬cfg.LoadFullImages ∧ paddedImageLength ≠ 32 then
        seekRel p2 ((paddedImageLength : Int) - (imgLen : Int) - 32) + secondImageLength
      else p2
    .ok (raw, align16 p3)
  else
    .error (.formatError "does not compare")

/-- Payload extraction for one non-filtered tile: the DualJPEG sub-format
for "gvmp" pages, a plain `payloadLength`-byte read for "jpeg" pages.
Returns the raw payload bytes and the cursor after extraction. -/
def extractTile (cfg : Config) (f : Bytes) (ty : ImageType) (pos len : Nat) :
    Except Failure (Bytes × Nat) :=
  match ty with
  | .gvmp => extractGvmp cfg f pos
  | .jpeg => .ok (readBytes f pos len, pos + len)

/-- The decode attempt and its two branches (raw export on failure;
overlap check, compositing or per-tile export, and the padding skip, on
success), applied to the extracted payload `raw` with the cursor at `p`.
This part of the loop body never aborts. -/
def processDecoded (cfg : Config) (dec : Decode) (page : String) (j : Nat)
    (t : ImageInfo) (s : TileState) (raw : Bytes) (p : Nat) : TileState :=
  match dec raw with
  | none =>
    { s with
      pos := p
      decodes := s.decodes + 1
      artifacts := s.artifacts ++ [.raw page j raw] }
  | some (dx, dy) =>
    let key := (t.gridPosW, t.gridPosH)
    let isDup := s.handled.contains key
    let s1 := { s with
      pos := p + t.fileLengthPadding
      decodes := s.decodes + 1
      hasAnyImageData := true
      warnings := if isDup then s.warnings ++ [key] else s.warnings
      handled := if isDup then s.handled else s.handled ++ [key] }
    if cfg.MergeImages then
      { s1 with
        draws := s.draws ++ [⟨t.gridPosW * 256, t.gridPosH * 256, dx, dy, j⟩] }
    else
      { s1 with
        artifacts := s.artifacts ++ [.tilePng page j t.gridPosW t.gridPosH] }

/-- One iteration of the tile loop of `readDatabase`: layer filter,
payload extraction, then the decode attempt and its branches. -/
def processTile (cfg : Config) (dec : Decode) (f : Bytes) (page : String)
    (ty : ImageType) (j : Nat) (t : ImageInfo) (s : TileState) :
    Except Failure TileState :=
  if cfg.TargetLayer ≠ -1 ∧ (t.layer : Int) ≠ cfg.TargetLayer then
    .ok { s with pos := s.pos + t.fileLength + t.fileLengthPadding }
  else
    match extractTile cfg f ty s.pos t.fileLength with
    | .error e => .error e
    | .ok (raw, p) => .ok (processDecoded cfg dec page j t s raw p)

/-- The whole tile loop, over index-paired descriptors. -/
def processTiles (cfg : Config) (dec : Decode) (f : Bytes) (page : String)
    (ty : ImageType) : List (Nat × ImageInfo) → TileState → Except Failure TileState
  | [], s => .ok s
  | (j, t) :: rest, s =>
    match processTile cfg dec f page ty j t s with
    | .error e => .error e
    | .ok s' => processTiles cfg dec f page ty rest s'

/-- The parsed per-page header fields. -/
structure ViewerHeader where
  imageType : ImageType
  imageWidth : Nat
  imageHeight : Nat
  lengthDatabase : Nat
  entranceLength : Nat
  paramLength : Nat
  lengthImages : Nat
deriving DecidableEq, Repr

/-- Outcome of the parse phase of one page: header fields, descriptor
table, and the absolute position where the payload region starts. -/
structure ParsedViewer where
  header : ViewerHeader
  images : List ImageInfo
  payloadStart : Nat
deriving DecidableEq, Repr

/-- Everything one successful page run of `readDatabase` produces. -/
structure PageResult where
  header : ViewerHeader
  images : List ImageInfo
  state : TileState
  artifacts : List Artifact
deriving DecidableEq, Repr

/-- Viewer-key dispatch: the two accepted 16-byte literals. -/
def keyType (f : Bytes) (pos0 : Nat) : Option ImageType :=
  if readBytes f pos0 16 = jpegKeyBytes then some .jpeg
  else if readBytes f pos0 16 = gvmpKeyBytes then some .gvmp
  else none

/-- The parse phase of `readDatabase` for one page whose viewer block
starts at `pos0`: key dispatch, width/height, BLK marker,
`lengthDatabase`, database-start literal, `entranceLength`,
`paramLength`, the unguarded division producing `numImages`, the
descriptor-table loop, BLK marker, `lengthImages` and the payload-start
literal. -/
def parseViewer (f : Bytes) (pos0 : Nat) : Except Failure ParsedViewer :=
  match keyType f pos0 with
  | none => .error (.formatError "unknown database type")
  | some ty =>
    let imageWidth := readUint32 f (pos0 + 16)
    let imageHeight := readUint32 f (pos0 + 20)
    if compareOk f (pos0 + 24) blkLit then
      let lengthDatabase := readUint32 f (pos0 + 28)
      if compareOk f (pos0 + 32) dbStartLit then
        let entranceLength := readUint32 f (pos0 + 40)
        let paramLength := readUint32 f (pos0 + 44)
        if entranceLength = 0 then
          .error .divideByZero
        else
          let numImages := lengthDatabase / entranceLength
          match parseImages f paramLength (pos0 + 48) numImages with
          | .error e => .error e
          | .ok images =>
            let pTab := pos0 + 48 + 32 * numImages
            if compareOk f pTab blkLit then
              let lengthImages := readUint32 f (pTab + 4)
              if compareOk f (pTab + 8) imgStartLit then
                .ok { header :=
                        { imageType := ty, imageWidth := imageWidth
                          imageHeight := imageHeight, lengthDatabase := lengthDatabase
                          entranceLength := entranceLength, paramLength := paramLength
                          lengthImages := lengthImages }
                      images := images
                      payloadStart := pTab + 16 }
              else .error (.formatError "does not compare")
            else .error (.formatError "does not compare")
      else .error (.formatError "does not compare")
    else .error (.formatError "does not compare")

/-- The compositor state at the start of a page's tile loop. -/
def initState (payloadStart : Nat) : TileState :=
  { pos := payloadStart, handled := [], hasAnyImageData := false
    draws := [], artifacts := [], warnings := [], decodes := 0 }

/-- The streaming phase of `readDatabase` for one parsed page: the tile
loop followed by the merged export guarded by
`MergeImages && hasAnyImageData`. -/
def runViewer (cfg : Config) (dec : Decode) (f : Bytes) (page : String)
    (pv : ParsedViewer) : Except Failure PageResult :=
  match processTiles cfg dec f page pv.header.imageType pv.images.enum
      (initState pv.payloadStart) with
  | .error e => .error e
  | .ok sFin =>
    let arts := if cfg.MergeImages ∧ sFin.hasAnyImageData then
        sFin.artifacts ++
          [.mergedPng page pv.header.imageWidth pv.header.imageHeight sFin.draws]
      else sFin.artifacts
    .ok { header := pv.header, images := pv.images, state := sFin, artifacts := arts }

/-- `readDatabase` from main.go, restricted to a single page whose viewer
block starts at absolute position `pos0` and whose resolved name is
`page`: the parse phase followed by the streaming phase. -/
def readDatabasePage (cfg : Config) (dec : Decode) (f : Bytes) (pos0 : Nat)
    (page : String) : Except Failure PageResult :=
  match parseViewer f pos0 with
  | .error e => .error e
  | .ok pv => runViewer cfg dec f page pv

/-! ### Observers on run outcomes -/

/-- The artifacts a page run wrote (an aborted run wrote none through the
modelled exporter). -/
def artifactsOf : Except Failure PageResult → List Artifact
  | .ok r => r.artifacts
  | .error _ => []

/-- Final cursor position of a successful page run. -/
def finalPos : Except Failure PageResult → Option Nat
  | .ok r => some r.state.pos
  | .error _ => none

/-- Overlap warnings of a successful page run. -/
def warningsOf : Except Failure PageResult → Option (List (Nat × Nat))
  | .ok r => some r.state.warnings
  | .error _ => none

/-- Cursor position after one tile step. -/
def stepPos : Except Failure TileState → Option Nat
  | .ok s => some s.pos
  | .error _ => none

/-- Whether an artifact is a merged-page canvas export. -/
def isMergedArtifact : Artifact → Bool
  | .mergedPng _ _ _ _ => true
  | _ => false

/-- Sum of the `payloadLength + paddingLength` extents of a descriptor
list, the amount the layer filter skips per tile. -/
def sumExtents (l : List (Nat × ImageInfo)) : Nat :=
  (l.map (fun x => x.2.fileLength + x.2.fileLengthPadding)).sum

/-! ### Concrete inputs for witnesses and counterexamples -/

/-- A decoder that rejects every payload. -/
def decNever : Decode := fun _ => none

/-- A decoder that accepts every payload as a 256×256 raster. -/
def decAlways : Decode := fun _ => some (256, 256)

/-- A decoder that accepts exactly the payloads starting with byte 255. -/
def decFirst255 : Decode := fun bs => if bs.getD 0 0 = 255 then some (256, 256) else none

/-- One 32-byte tile descriptor, reserved field zero. -/
def mkDesc (gw gh layer len pad w h : Nat) : Bytes :=
  u32 gw ++ u32 gh ++ u32 layer ++ u32 len ++ u32 pad ++ u32 0 ++ u32 w ++ u32 h

/-- A whole single-page viewer block placed at position 0. -/
def mkPage (key : Bytes) (width height lengthDatabase entranceLength paramLength : Nat)
    (table : Bytes) (lengthImages : Nat) (payload : Bytes) : Bytes :=
  key ++ u32 width ++ u32 height ++ blkLit ++ u32 lengthDatabase ++ dbStartLit ++
    u32 entranceLength ++ u32 paramLength ++ table ++ blkLit ++ u32 lengthImages ++
    imgStartLit ++ payload

/-- The 32-byte GVMP sub-header followed by the tile body. -/
def mkGvmpTile (imageLength paddedImageLength secondImageLength : Nat) (body : Bytes) : Bytes :=
  gvmpLit ++ u32 2 ++ u32 0x20 ++ u32 imageLength ++ u32 paddedImageLength ++
    u32 secondImageLength ++ u32 0 ++ u32 0 ++ body

/-- Successful parse, as an `Option`. -/
def parseOk : Except Failure ParsedViewer → Option ParsedViewer
  | .ok pv => some pv
  | .error _ => none

/-- Descriptor table of a successful page run. -/
def imagesOf : Except Failure PageResult → List ImageInfo
  | .ok r => r.images
  | .error _ => []

/-- Warnings after one tile step. -/
def stepWarnings : Except Failure TileState → Option (List (Nat × Nat))
  | .ok s => some s.warnings
  | .error _ => none

/-- Whether a tile step completed without aborting the run. -/
def stepOk : Except Failure TileState → Bool
  | .ok _ => true
  | .error _ => false

/-- Whether a `Failure` is one of the explicit diagnostic aborts. -/
def isFormatError : Failure → Bool
  | .formatError _ => true
  | .divideByZero => false

/-- The page result of a run known to succeed (a dummy otherwise). -/
def resultOf : Except Failure PageResult → PageResult
  | .ok r => r
  | .error _ =>
    { header := { imageType := .jpeg, imageWidth := 0, imageHeight := 0
                  lengthDatabase := 0, entranceLength := 0, paramLength := 0
                  lengthImages := 0 }
      images := [], state := initState 0, artifacts := [] }

/-- PlainJPEG page, `databaseLength = 33` not divisible by
`entryStride = 32`: one descriptor (layer 5, so it is skipped under a
layer-0 filter), 4 payload bytes. -/
def fileC1 : Bytes :=
  mkPage jpegKeyBytes 512 512 33 32 4 (mkDesc 0 0 5 4 0 256 256) 4 [1, 2, 3, 4]

/-- Descriptor of the single tile of `fileC1`. -/
def descC1 : ImageInfo :=
  { gridPosW := 0, gridPosH := 0, layer := 5, fileLength := 4
    fileLengthPadding := 0, width := 256, height := 256 }

/-- PlainJPEG page with one layer-0 tile, `payloadLength = 4`,
`paddingLength = 7`; the payload region starts at position 96. -/
def fileC2 : Bytes :=
  mkPage jpegKeyBytes 512 512 32 32 4 (mkDesc 0 0 0 4 7 256 256) 11
    ([9, 9, 9, 9] ++ List.replicate 7 0)

/-- Descriptor of the single tile of `fileC2`. -/
def descC2 : ImageInfo :=
  { gridPosW := 0, gridPosH := 0, layer := 0, fileLength := 4
    fileLengthPadding := 7, width := 256, height := 256 }

/-- The compositor state after `fileC2`'s single tile failed to decode:
the raw artifact was written and the cursor stopped at 100 without the
padding advance. -/
def stateC2post : TileState :=
  { pos := 100, handled := [], hasAnyImageData := false, draws := []
    artifacts := [.raw "p" 0 [9, 9, 9, 9]], warnings := [], decodes := 1 }

/-- DualJPEG page with one layer-0 tile whose GVMP sub-header says
`firstImageLength = 8`, `paddedFirstImageLength = 48`,
`secondImageLength = 16`; the first sub-image starts with byte 1 (decode
fails under `decFirst255`), the second with byte 255 (decode succeeds);
descriptor `paddingLength = 16`.  Payload region starts at 96, the GVMP
blob ends 16-byte aligned at 160. -/
def fileC3 : Bytes :=
  mkPage gvmpKeyBytes 512 512 32 32 4 (mkDesc 0 0 0 64 16 256 256) 64
    (mkGvmpTile 8 48 16
      ([1, 2, 3, 4, 5, 6, 7, 8] ++ [0, 0, 0, 0, 0, 0, 0, 0] ++ (255 :: List.replicate 15 9)))

/-- PlainJPEG page with two always-decodable tiles on layers 0 and 1 at
grid coordinates (0,0) and (1,0). -/
def fileC5 : Bytes :=
  mkPage jpegKeyBytes 512 512 64 32 4
    (mkDesc 0 0 0 4 0 256 256 ++ mkDesc 1 0 1 4 0 256 256) 8
    ([1, 1, 1, 1] ++ [2, 2, 2, 2])

/-- DualJPEG page whose descriptor says `payloadLength = 200` but whose
GVMP sub-header carries `firstImageLength = 3` and no second image
(`paddedFirstImageLength = 32`). -/
def fileC6 : Bytes :=
  mkPage gvmpKeyBytes 512 512 32 32 4 (mkDesc 0 0 0 200 0 256 256) 48
    (mkGvmpTile 3 32 0 [7, 8, 9])

/-- PlainJPEG page with `databaseLength = 0` (so `tileCount = 0`) and the
unsupported `paramLength = 9`. -/
def fileC7 : Bytes := mkPage jpegKeyBytes 512 512 0 32 9 [] 0 []

/-- A viewer block whose 16-byte key is "XXXXXXXXXXXXXXXX", matching
neither accepted literal. -/
def fileC8 : Bytes := List.replicate 16 88

/-- A second unrecognised-key file agreeing with `fileC8` on the 16 key
bytes but differing afterwards. -/
def fileC8' : Bytes := List.replicate 16 88 ++ [1, 2, 3, 4, 5]

/-- PlainJPEG page with two always-decodable tiles that share grid
coordinate (0,0) but sit on different layers (0 and 1). -/
def fileC9 : Bytes :=
  mkPage jpegKeyBytes 512 512 64 32 4
    (mkDesc 0 0 0 4 0 256 256 ++ mkDesc 0 0 1 4 0 256 256) 8
    ([1, 1, 1, 1] ++ [2, 2, 2, 2])

/-- Descriptor of the second (layer-1) tile of `fileC9`. -/
def descC9b : ImageInfo :=
  { gridPosW := 0, gridPosH := 0, layer := 1, fileLength := 4
    fileLengthPadding := 0, width := 256, height := 256 }

/-- A compositor state mid-way through `fileC9`: after the first tile,
`(0,0)` is already in the page-level seen-set and the cursor sits at the
second tile's payload (position 132). -/
def stateC9mid : TileState :=
  { pos := 132, handled := [(0, 0)], hasAnyImageData := true
    draws := [{ x := 0, y := 0, dx := 256, dy := 256, tileIndex := 0 }]
    artifacts := [], warnings := [], decodes := 1 }

/-- PlainJPEG page whose `entryStride` field (`entranceLength`) is 0. -/
def fileC10 : Bytes := mkPage jpegKeyBytes 512 512 0 0 4 [] 0 []

/-- The result of `parseViewer` when it is known to succeed. -/
def parsedOf : Except Failure ParsedViewer → ParsedViewer
  | .ok pv => pv
  | .error _ =>
    { header := { imageType := .jpeg, imageWidth := 0, imageHeight := 0
                  lengthDatabase := 0, entranceLength := 0, paramLength := 0
                  lengthImages := 0 }
      images := [], payloadStart := 0 }

/-- Descriptor of the single tile of `fileC3`. -/
def descC3 : ImageInfo :=
  { gridPosW := 0, gridPosH := 0, layer := 0, fileLength := 64
    fileLengthPadding := 16, width := 256, height := 256 }

/-- The page result of the all-layers merged run over `fileC5`. -/
def resultC5 : PageResult :=
  resultOf (readDatabasePage ⟨true, -1, true⟩ decAlways fileC5 0 "p")

end PlayView

namespace PlayView

/-! ### Helper lemmas -/

theorem readBytes_length (f : Bytes) (p n : Nat) : (readBytes f p n).length = n := by
  simp [readBytes]

theorem parseImages_length (f : Bytes) (q : Nat) :
    ∀ (n p : Nat) (l : List ImageInfo), parseImages f q p n = .ok l → l.length = n := by
  intro n
  induction n with
  | zero =>
    intro p l h
    simp only [parseImages] at h
    cases h
    rfl
  | succ k ih =>
    intro p l h
    simp only [parseImages] at h
    split at h
    · cases hrest : parseImages f q (p + 32) k with
      | ok rest =>
        rw [hrest] at h
        cases h
        simp [ih (p + 32) rest hrest]
      | error e => rw [hrest] at h; exact Except.noConfusion h
    · exact Except.noConfusion h

/-! ### C1 -/

/-- C1 (counterexample): on `fileC1` the viewer block declares
`databaseLength = 33` and `entryStride = 32`; 32 does not divide 33, yet
parsing succeeds with the tile table silently truncated to `33 / 32 = 1`
entry — no FormatError is raised. -/
theorem c1_nondividing_stride_no_error :
    (parseOk (parseViewer fileC1 0)).map
        (fun pv => (pv.header.lengthDatabase, pv.header.entranceLength, pv.images.length)) =
      some (33, 32, 1) ∧
    (33 : Nat) % 32 ≠ 0 :=
  ⟨rfl, by decide⟩

/-- C1 (amended): for every successfully parsed viewer block, the tile
table length is the floor quotient `databaseLength / entryStride`; a
non-dividing `databaseLength` is silently truncated, never rejected. -/
theorem c1_table_is_floor_quotient (f : Bytes) (pos0 : Nat) (pv : ParsedViewer)
    (h : parseViewer f pos0 = .ok pv) :
    pv.images.length = pv.header.lengthDatabase / pv.header.entranceLength := by
  simp only [parseViewer] at h
  split at h
  · exact Except.noConfusion h
  · split at h
    · split at h
      · split at h
        · exact Except.noConfusion h
        · split at h
          · exact Except.noConfusion h
          · split at h
            · split at h
              · injection h with h2
                subst h2
                simpa using parseImages_length f _ _ _ _ (by assumption)
              · exact Except.noConfusion h
            · exact Except.noConfusion h
      · exact Except.noConfusion h
    · exact Except.noConfusion h

/-- C1 (witness): the amended statement evaluated on `fileC1`. -/
theorem c1_table_is_floor_quotient_witness :
    parseViewer fileC1 0 = .ok (parsedOf (parseViewer fileC1 0)) ∧
    (parsedOf (parseViewer fileC1 0)).images.length =
      (parsedOf (parseViewer fileC1 0)).header.lengthDatabase /
        (parsedOf (parseViewer fileC1 0)).header.entranceLength :=
  ⟨rfl, c1_table_is_floor_quotient fileC1 0 _ rfl⟩

/-! ### C7 -/

/-- C7 (counterexample): `fileC7` has the unsupported `paramLength = 9`
but an empty tile table (`databaseLength = 0`), and the whole page run
succeeds silently — no error, no artifacts — contradicting the claim
that any `paramLength ≠ 4` raises a FormatError even with
`tileCount = 0`. -/
theorem c7_param9_empty_table_silent :
    (parseOk (parseViewer fileC7 0)).map
        (fun pv => (pv.header.paramLength, pv.images.length)) = some (9, 0) ∧
    artifactsOf (readDatabasePage ⟨true, 0, true⟩ decNever fileC7 0 "p") = [] ∧
    finalPos (readDatabasePage ⟨true, 0, true⟩ decNever fileC7 0 "p") = some 64 ∧
    (9 : Nat) ≠ 4 :=
  ⟨rfl, rfl, rfl, by decide⟩

/-- C7 (amended): the `paramLength == 4` test sits inside the descriptor
loop, so an unsupported `paramLength` raises the "not implemented"
FormatError iff at least one table entry is parsed; with an empty table
the check never runs and parsing is a silent no-op. -/
theorem c7_param_check_only_in_loop (f : Bytes) (q p n : Nat) (hq : q ≠ 4) :
    parseImages f q p n =
      if n = 0 then .ok [] else .error (.formatError "not implemented") := by
  cases n with
  | zero => simp [parseImages]
  | succ k => simp [parseImages, hq]

/-- C7 (witness): the amended statement evaluated at one table entry. -/
theorem c7_param_check_only_in_loop_witness :
    parseImages fileC7 9 48 1 =
      if 1 = 0 then .ok [] else .error (.formatError "not implemented") :=
  c7_param_check_only_in_loop fileC7 9 48 1 (by decide)

/-! ### C8 -/

/-- C8: a 16-byte viewer key equal to neither accepted literal aborts
the page run with the "unknown database type" FormatError, writes no
artifacts, and the abort is decided by the 16 key bytes alone — any file
agreeing on those bytes aborts identically, hence before any of the tile
table is read. -/
theorem c8_unknown_key_aborts (cfg : Config) (dec : Decode) (f g : Bytes)
    (pos0 : Nat) (page : String)
    (h1 : readBytes f pos0 16 ≠ jpegKeyBytes)
    (h2 : readBytes f pos0 16 ≠ gvmpKeyBytes)
    (hg : readBytes g pos0 16 = readBytes f pos0 16) :
    readDatabasePage cfg dec f pos0 page = .error (.formatError "unknown database type") ∧
    artifactsOf (readDatabasePage cfg dec f pos0 page) = [] ∧
    readDatabasePage cfg dec g pos0 page = .error (.formatError "unknown database type") := by
  have hkf : keyType f pos0 = none := by simp [keyType, h1, h2]
  have hkg : keyType g pos0 = none := by
    simp only [keyType, hg]
    simp [h1, h2]
  refine ⟨?_, ?_, ?_⟩
  · simp [readDatabasePage, parseViewer, hkf]
  · simp [readDatabasePage, parseViewer, hkf, artifactsOf]
  · simp [readDatabasePage, parseViewer, hkg]

/-- C8 (witness): the all-X key of `fileC8` aborts, as does `fileC8'`
which agrees with it on the key bytes. -/
theorem c8_unknown_key_aborts_witness :
    readDatabasePage ⟨true, 0, true⟩ decNever fileC8 0 "p" =
      .error (.formatError "unknown database type") ∧
    artifactsOf (readDatabasePage ⟨true, 0, true⟩ decNever fileC8 0 "p") = [] ∧
    readDatabasePage ⟨true, 0, true⟩ decNever fileC8' 0 "p" =
      .error (.formatError "unknown database type") :=
  c8_unknown_key_aborts ⟨true, 0, true⟩ decNever fileC8 fileC8' 0 "p"
    (by decide) (by decide) (by decide)

/-! ### C10 -/

/-- C10: a page whose `entranceLength` field parses as 0 dies at the
unguarded integer division `lengthDatabase / entranceLength`: the run
ends in the `divideByZero` runtime panic, which is not one of the
diagnostic `formatError` aborts naming an offending field. -/
theorem c10_zero_stride_divide_by_zero (f : Bytes) (pos0 : Nat)
    (hkey : keyType f pos0 ≠ none)
    (hblk : compareOk f (pos0 + 24) blkLit = true)
    (hdb : compareOk f (pos0 + 32) dbStartLit = true)
    (hent : readUint32 f (pos0 + 40) = 0) :
    parseViewer f pos0 = .error .divideByZero ∧
    isFormatError .divideByZero = false := by
  refine ⟨?_, rfl⟩
  cases hk : keyType f pos0 with
  | none => exact absurd hk hkey
  | some ty => simp [parseViewer, hk, hblk, hdb, hent]

/-- C10 (witness): the statement evaluated on `fileC10`. -/
theorem c10_zero_stride_divide_by_zero_witness :
    parseViewer fileC10 0 = .error .divideByZero ∧
    isFormatError .divideByZero = false :=
  c10_zero_stride_divide_by_zero fileC10 0 (by decide) (by decide) (by decide) (by decide)

end PlayView

namespace PlayView

theorem processTile_not_filtered (cfg : Config) (dec : Decode) (f : Bytes)
    (page : String) (ty : ImageType) (j : Nat) (t : ImageInfo) (s : TileState)
    (raw : Bytes) (p : Nat)
    (hlay : ¬(cfg.TargetLayer ≠ -1 ∧ (t.layer : Int) ≠ cfg.TargetLayer))
    (hext : extractTile cfg f ty s.pos t.fileLength = .ok (raw, p)) :
    processTile cfg dec f page ty j t s =
      .ok (processDecoded cfg dec page j t s raw p) := by
  unfold processTile
  rw [if_neg hlay, hext]

/-! ### C4 -/

theorem processTiles_all_filtered (cfg : Config) (dec : Decode) (f : Bytes)
    (page : String) (ty : ImageType) (tiles : List (Nat × ImageInfo))
    (htl : cfg.TargetLayer ≠ -1) :
    ∀ (s0 : TileState),
      (∀ x ∈ tiles, ((x.2).layer : Int) ≠ cfg.TargetLayer) →
      processTiles cfg dec f page ty tiles s0 =
        .ok { s0 with pos := s0.pos + sumExtents tiles } := by
  induction tiles with
  | nil =>
    intro s0 _
    simp [processTiles, sumExtents]
  | cons x rest ih =>
    intro s0 hall
    obtain ⟨j, t⟩ := x
    have hx : (t.layer : Int) ≠ cfg.TargetLayer := hall (j, t) (by simp)
    have hstep : processTile cfg dec f page ty j t s0 =
        .ok { s0 with pos := s0.pos + t.fileLength + t.fileLengthPadding } := by
      unfold processTile
      rw [if_pos ⟨htl, hx⟩]
    simp only [processTiles, hstep]
    rw [ih _ (fun y hy => hall y (List.mem_cons_of_mem _ hy))]
    simp only [sumExtents, List.map_cons, List.sum_cons]
    congr 2
    omega

/-- C4: a tile excluded by the layer filter advances the cursor by
exactly `payloadLength + paddingLength` while attempting no decode and
touching no canvas, seen-set, or artifact (the remaining state is
untouched), for both page types; and a run of consecutively excluded
tiles leaves the cursor at the start position plus the sum of the
per-tile `payloadLength + paddingLength` extents, i.e. correctly
positioned for every subsequent tile. -/
theorem c4_layer_filter_exact_skip (cfg : Config) (dec : Decode) (f : Bytes)
    (page : String) (ty : ImageType) (j : Nat) (t : ImageInfo) (s : TileState)
    (tiles : List (Nat × ImageInfo)) (s0 : TileState)
    (hfilt : cfg.TargetLayer ≠ -1 ∧ (t.layer : Int) ≠ cfg.TargetLayer)
    (hall : ∀ x ∈ tiles, ((x.2).layer : Int) ≠ cfg.TargetLayer) :
    processTile cfg dec f page ty j t s =
      .ok { s with pos := s.pos + t.fileLength + t.fileLengthPadding } ∧
    processTiles cfg dec f page ty tiles s0 =
      .ok { s0 with pos := s0.pos + sumExtents tiles } := by
  constructor
  · unfold processTile
    rw [if_pos hfilt]
  · exact processTiles_all_filtered cfg dec f page ty tiles hfilt.1 s0 hall

/-- C4 (witness): the filtered layer-5 tile of `fileC1` under a layer-0
filter, as a single step and as a one-tile run. -/
theorem c4_layer_filter_exact_skip_witness :
    processTile ⟨true, 0, true⟩ decNever fileC1 "p" .jpeg 0 descC1 (initState 96) =
      .ok { (initState 96) with
            pos := (initState 96).pos + descC1.fileLength + descC1.fileLengthPadding } ∧
    processTiles ⟨true, 0, true⟩ decNever fileC1 "p" .jpeg [(0, descC1)] (initState 96) =
      .ok { (initState 96) with
            pos := (initState 96).pos + sumExtents [(0, descC1)] } :=
  c4_layer_filter_exact_skip ⟨true, 0, true⟩ decNever fileC1 "p" .jpeg 0 descC1
    (initState 96) [(0, descC1)] (initState 96) (by decide) (by decide)

/-! ### C2 -/

/-- C2 (counterexample): in `fileC2` the single PlainJPEG tile has
`paddingLength = 7` and its payload starts at 96; its decode fails (a
raw artifact is written) and the final cursor is 100 = 96 + payloadLength
— not 107, so the claimed advance on decode failure does not happen.
Moreover in `fileC3` the DualJPEG enabled run's decode succeeds and ends
at 176 = 160 + paddingLength, an extra `paddingLength` advance on top of
the branch's own 16-byte alignment, contrary to the claim's DualJPEG
half. -/
theorem c2_padding_skip_depends_on_decode :
    finalPos (readDatabasePage ⟨true, 0, true⟩ decNever fileC2 0 "p") = some 100 ∧
    artifactsOf (readDatabasePage ⟨true, 0, true⟩ decNever fileC2 0 "p") =
      [.raw "p" 0 [9, 9, 9, 9]] ∧
    (100 : Nat) ≠ 96 + 4 + 7 ∧
    finalPos (readDatabasePage ⟨true, 0, true⟩ decFirst255 fileC3 0 "p") = some 176 ∧
    (176 : Nat) = 160 + 16 :=
  ⟨rfl, rfl, by decide, rfl, by decide⟩

/-- C2 (amended): for a non-filtered tile of either page type whose
payload extraction ends at cursor `p`, the tile step ends at
`p + paddingLength` exactly when the decode succeeds and at `p` when it
fails; for PlainJPEG, `p` itself is payload start plus `payloadLength`. -/
theorem c2_padding_iff_decode_success (cfg : Config) (dec : Decode) (f : Bytes)
    (page : String) (ty : ImageType) (j : Nat) (t : ImageInfo) (s : TileState)
    (raw : Bytes) (p : Nat) (s' : TileState)
    (hlay : ¬(cfg.TargetLayer ≠ -1 ∧ (t.layer : Int) ≠ cfg.TargetLayer))
    (hext : extractTile cfg f ty s.pos t.fileLength = .ok (raw, p))
    (hrun : processTile cfg dec f page ty j t s = .ok s') :
    (s'.pos = if (dec raw).isSome then p + t.fileLengthPadding else p) ∧
    (ty = .jpeg → p = s.pos + t.fileLength) := by
  constructor
  · have hs : s' = processDecoded cfg dec page j t s raw p :=
      Except.ok.inj (hrun.symm.trans
        (processTile_not_filtered cfg dec f page ty j t s raw p hlay hext))
    subst hs
    cases hdec : dec raw with
    | none => simp [processDecoded, hdec]
    | some d =>
      obtain ⟨dx, dy⟩ := d
      simp only [processDecoded, hdec, Option.isSome_some, if_true]
      split <;> rfl
  · intro hty
    subst hty
    simp [extractTile] at hext
    exact hext.2.symm

/-- C2 (witness): the amended statement evaluated on the failing tile of
`fileC2`. -/
theorem c2_padding_iff_decode_success_witness :
    (stateC2post.pos =
      if (decNever (readBytes fileC2 96 4)).isSome then 100 + 7 else 100) ∧
    (ImageType.jpeg = ImageType.jpeg → 100 = (initState 96).pos + descC2.fileLength) :=
  c2_padding_iff_decode_success ⟨true, 0, true⟩ decNever fileC2 "p" .jpeg 0 descC2
    (initState 96) (readBytes fileC2 96 4) 100 stateC2post (by decide) rfl rfl

/-! ### C6 -/

/-- C6 (counterexample): in `fileC6` the DualJPEG descriptor declares
`payloadLength = 200`, but the raw artifact written after the decode
failure holds the 3 extracted bytes `[7, 8, 9]` (the GVMP
`firstImageLength`), not 200 bytes. -/
theorem c6_raw_artifact_not_payload_length :
    artifactsOf (readDatabasePage ⟨true, 0, false⟩ decNever fileC6 0 "p") =
      [.raw "p" 0 [7, 8, 9]] ∧
    (imagesOf (readDatabasePage ⟨true, 0, false⟩ decNever fileC6 0 "p")).map
        ImageInfo.fileLength = [200] ∧
    ([7, 8, 9] : Bytes).length ≠ 200 ∧
    finalPos (readDatabasePage ⟨true, 0, false⟩ decNever fileC6 0 "p") = some 144 :=
  ⟨rfl, rfl, by decide, rfl⟩

/-- C6 (amended): on decode failure the raw extracted payload bytes are
written unmodified as an artifact keyed by (page, tile index), the tile
is not composited, and the run continues (`.ok`, state otherwise
untouched); for PlainJPEG the artifact holds exactly `payloadLength`
bytes but the step ends at the extraction cursor without the
`paddingLength` advance. -/
theorem c6_decode_failure_isolated (cfg : Config) (dec : Decode) (f : Bytes)
    (page : String) (ty : ImageType) (j : Nat) (t : ImageInfo) (s : TileState)
    (raw : Bytes) (p : Nat)
    (hlay : ¬(cfg.TargetLayer ≠ -1 ∧ (t.layer : Int) ≠ cfg.TargetLayer))
    (hext : extractTile cfg f ty s.pos t.fileLength = .ok (raw, p))
    (hdec : dec raw = none) :
    processTile cfg dec f page ty j t s =
      .ok { s with
        pos := p, decodes := s.decodes + 1,
        artifacts := s.artifacts ++ [.raw page j raw] } ∧
    (ty = .jpeg → raw.length = t.fileLength ∧ p = s.pos + t.fileLength) := by
  constructor
  · rw [processTile_not_filtered cfg dec f page ty j t s raw p hlay hext]
    unfold processDecoded
    rw [hdec]
  · intro hty
    subst hty
    simp [extractTile] at hext
    constructor
    · rw [← hext.1]
      exact readBytes_length f s.pos t.fileLength
    · exact hext.2.symm

/-- C6 (witness): the amended statement evaluated on the failing DualJPEG
tile of `fileC6`. -/
theorem c6_decode_failure_isolated_witness :
    processTile ⟨true, 0, false⟩ decNever fileC6 "p" .gvmp 0
        { gridPosW := 0, gridPosH := 0, layer := 0, fileLength := 200
          fileLengthPadding := 0, width := 256, height := 256 } (initState 96) =
      .ok { (initState 96) with
        pos := 144, decodes := (initState 96).decodes + 1,
        artifacts := (initState 96).artifacts ++ [.raw "p" 0 [7, 8, 9]] } ∧
    (ImageType.gvmp = ImageType.jpeg →
      ([7, 8, 9] : Bytes).length = 200 ∧ 144 = (initState 96).pos + 200) :=
  c6_decode_failure_isolated ⟨true, 0, false⟩ decNever fileC6 "p" .gvmp 0
    { gridPosW := 0, gridPosH := 0, layer := 0, fileLength := 200
      fileLengthPadding := 0, width := 256, height := 256 }
    (initState 96) [7, 8, 9] 144 (by decide) rfl rfl

/-! ### C9 -/

/-- C9 (counterexample): in `fileC9` two tiles share grid coordinate
(0,0) but sit on layers 0 and 1; under the all-layers sentinel both
decode successfully and the second does trigger an overlap warning —
the seen-set is page-scoped, not (page, layer)-scoped. -/
theorem c9_cross_layer_duplicate_warns :
    warningsOf (readDatabasePage ⟨true, -1, true⟩ decAlways fileC9 0 "p") =
      some [(0, 0)] ∧
    (imagesOf (readDatabasePage ⟨true, -1, true⟩ decAlways fileC9 0 "p")).map
        ImageInfo.layer = [0, 1] ∧
    (imagesOf (readDatabasePage ⟨true, -1, true⟩ decAlways fileC9 0 "p")).map
        (fun t => (t.gridPosW, t.gridPosH)) = [(0, 0), (0, 0)] ∧
    ([(0, 0)] : List (Nat × Nat)) ≠ [] :=
  ⟨rfl, rfl, rfl, by decide⟩

/-- C9 (amended): a successfully decoded tile never aborts the run, and
it appends an overlap warning exactly when its (gridX, gridY) is already
in the page-level seen-set — the tile's layer plays no role in the
check, so duplicates across layers of the same page also warn. -/
theorem c9_overlap_warning_page_scoped (cfg : Config) (dec : Decode) (f : Bytes)
    (page : String) (ty : ImageType) (j : Nat) (t : ImageInfo) (s : TileState)
    (raw : Bytes) (p : Nat) (d : Nat × Nat)
    (hlay : ¬(cfg.TargetLayer ≠ -1 ∧ (t.layer : Int) ≠ cfg.TargetLayer))
    (hext : extractTile cfg f ty s.pos t.fileLength = .ok (raw, p))
    (hdec : dec raw = some d) :
    stepOk (processTile cfg dec f page ty j t s) = true ∧
    stepWarnings (processTile cfg dec f page ty j t s) =
      some (s.warnings ++
        (if s.handled.contains (t.gridPosW, t.gridPosH) then
          [(t.gridPosW, t.gridPosH)] else [])) := by
  obtain ⟨dx, dy⟩ := d
  rw [processTile_not_filtered cfg dec f page ty j t s raw p hlay hext]
  simp only [processDecoded, hdec]
  constructor
  · split <;> rfl
  · split <;> (simp only [stepWarnings, Option.some.injEq]; split <;> simp)

/-- C9 (witness): the amended statement evaluated on the second tile of
`fileC9` (layer 1, coordinate (0,0) already seen from the layer-0 tile). -/
theorem c9_overlap_warning_page_scoped_witness :
    stepOk (processTile ⟨true, -1, true⟩ decAlways fileC9 "p" .jpeg 1 descC9b stateC9mid) =
      true ∧
    stepWarnings (processTile ⟨true, -1, true⟩ decAlways fileC9 "p" .jpeg 1 descC9b stateC9mid) =
      some (stateC9mid.warnings ++
        (if stateC9mid.handled.contains (descC9b.gridPosW, descC9b.gridPosH) then
          [(descC9b.gridPosW, descC9b.gridPosH)] else [])) :=
  c9_overlap_warning_page_scoped ⟨true, -1, true⟩ decAlways fileC9 "p" .jpeg 1 descC9b
    stateC9mid (readBytes fileC9 132 4) 136 (256, 256) (by decide) rfl rfl

end PlayView

namespace PlayView

/-! ### C3 -/

theorem seekRel_exact (p : Nat) (d : Int) (q : Nat) (h : (p : Int) + d = (q : Int)) :
    seekRel p d = q := by
  unfold seekRel
  rw [h]
  simp

theorem extractGvmp_off (m : Bool) (tl : Int) (f : Bytes) (pos L1 P L2 : Nat)
    (hok : gvmpHeaderOk f pos = true)
    (hL1 : readUint32 f (pos + 12) = L1)
    (hP : readUint32 f (pos + 16) = P)
    (hL2 : readUint32 f (pos + 20) = L2)
    (hsnd : P ≠ 32) :
    extractGvmp ⟨m, tl, false⟩ f pos =
      .ok (readBytes f (pos + 32) L1, align16 (pos + P + L2)) := by
  unfold extractGvmp
  rw [if_pos hok]
  have h1 : seekRel (pos + 32 + L1) ((P : Int) - (L1 : Int) - 32) = pos + P :=
    seekRel_exact _ _ _ (by push_cast; ring)
  simp [hL1, hP, hL2, hsnd, h1]

theorem extractGvmp_on (m : Bool) (tl : Int) (f : Bytes) (pos L1 P L2 : Nat)
    (hok : gvmpHeaderOk f pos = true)
    (hL1 : readUint32 f (pos + 12) = L1)
    (hP : readUint32 f (pos + 16) = P)
    (hL2 : readUint32 f (pos + 20) = L2)
    (hsnd : P ≠ 32) :
    extractGvmp ⟨m, tl, true⟩ f pos =
      .ok (readBytes f (pos + P) L2, align16 (pos + P + L2)) := by
  unfold extractGvmp
  rw [if_pos hok]
  have h1 : seekRel (pos + 32) ((P : Int) - 32) = pos + P :=
    seekRel_exact _ _ _ (by push_cast; ring)
  simp [hL1, hP, hL2, hsnd, h1]

/-- C3 (counterexample): `fileC3`, same DualJPEG tile, hidden-area reveal
off vs on under the decoder that accepts exactly the second sub-image:
the off run ends the tile at 160 (decode failed, raw artifact of the
8-byte first sub-image, no padding advance) while the on run ends at 176
(decode succeeded, padding advance) — the two runs do not consume the
same total bytes for the tile. -/
theorem c3_toggle_changes_cursor :
    finalPos (readDatabasePage ⟨true, 0, false⟩ decFirst255 fileC3 0 "p") = some 160 ∧
    finalPos (readDatabasePage ⟨true, 0, true⟩ decFirst255 fileC3 0 "p") = some 176 ∧
    artifactsOf (readDatabasePage ⟨true, 0, false⟩ decFirst255 fileC3 0 "p") =
      [.raw "p" 0 [1, 2, 3, 4, 5, 6, 7, 8]] ∧
    (some (160 : Nat)) ≠ some 176 :=
  ⟨rfl, rfl, rfl, by decide⟩

/-- C3 (amended): for a DualJPEG tile with a second image present
(`paddedFirstImageLength ≠ 32`), the reveal-off and reveal-on runs reach
the same cursor position at the end of the extraction-and-alignment
step, the off run extracting the `firstImageLength`-byte first sub-image
and the on run the `secondImageLength`-byte second sub-image; the
positions before the next tile coincide whenever the two runs' decode
outcomes agree (the trailing `paddingLength` advance is tied to decode
success, see C2). -/
theorem c3_hidden_toggle_same_extraction (m m' : Bool) (tl : Int) (dec : Decode)
    (f : Bytes) (page : String) (j : Nat) (t : ImageInfo) (s : TileState)
    (pos L1 P L2 : Nat)
    (hok : gvmpHeaderOk f pos = true)
    (hL1 : readUint32 f (pos + 12) = L1)
    (hP : readUint32 f (pos + 16) = P)
    (hL2 : readUint32 f (pos + 20) = L2)
    (hsnd : P ≠ 32)
    (hspos : s.pos = pos)
    (hlay : ¬(tl ≠ -1 ∧ (t.layer : Int) ≠ tl))
    (hagree : (dec (readBytes f (pos + 32) L1)).isSome =
      (dec (readBytes f (pos + P) L2)).isSome) :
    extractGvmp ⟨m, tl, false⟩ f pos =
      .ok (readBytes f (pos + 32) L1, align16 (pos + P + L2)) ∧
    extractGvmp ⟨m', tl, true⟩ f pos =
      .ok (readBytes f (pos + P) L2, align16 (pos + P + L2)) ∧
    stepPos (processTile ⟨m, tl, false⟩ dec f page .gvmp j t s) =
      stepPos (processTile ⟨m', tl, true⟩ dec f page .gvmp j t s) := by
  refine ⟨extractGvmp_off m tl f pos L1 P L2 hok hL1 hP hL2 hsnd,
          extractGvmp_on m' tl f pos L1 P L2 hok hL1 hP hL2 hsnd, ?_⟩
  have hextOff : extractTile ⟨m, tl, false⟩ f .gvmp s.pos t.fileLength =
      .ok (readBytes f (pos + 32) L1, align16 (pos + P + L2)) := by
    simp only [extractTile, hspos]
    exact extractGvmp_off m tl f pos L1 P L2 hok hL1 hP hL2 hsnd
  have hextOn : extractTile ⟨m', tl, true⟩ f .gvmp s.pos t.fileLength =
      .ok (readBytes f (pos + P) L2, align16 (pos + P + L2)) := by
    simp only [extractTile, hspos]
    exact extractGvmp_on m' tl f pos L1 P L2 hok hL1 hP hL2 hsnd
  rw [processTile_not_filtered ⟨m, tl, false⟩ dec f page .gvmp j t s _ _ hlay hextOff,
      processTile_not_filtered ⟨m', tl, true⟩ dec f page .gvmp j t s _ _ hlay hextOn]
  cases hd1 : dec (readBytes f (pos + 32) L1) with
  | none =>
    cases hd2 : dec (readBytes f (pos + P) L2) with
    | none => simp [processDecoded, hd1, hd2, stepPos]
    | some d2 => rw [hd1, hd2] at hagree; simp at hagree
  | some d1 =>
    cases hd2 : dec (readBytes f (pos + P) L2) with
    | none => rw [hd1, hd2] at hagree; simp at hagree
    | some d2 =>
      obtain ⟨dx1, dy1⟩ := d1
      obtain ⟨dx2, dy2⟩ := d2
      simp only [processDecoded, hd1, hd2, stepPos, apply_ite TileState.pos]
      simp

/-- C3 (witness): the amended statement evaluated on `fileC3` under the
all-rejecting decoder (both runs' decode outcomes agree). -/
theorem c3_hidden_toggle_same_extraction_witness :
    extractGvmp ⟨true, 0, false⟩ fileC3 96 =
      .ok (readBytes fileC3 128 8, align16 160) ∧
    extractGvmp ⟨true, 0, true⟩ fileC3 96 =
      .ok (readBytes fileC3 144 16, align16 160) ∧
    stepPos (processTile ⟨true, 0, false⟩ decNever fileC3 "p" .gvmp 0 descC3 (initState 96)) =
      stepPos (processTile ⟨true, 0, true⟩ decNever fileC3 "p" .gvmp 0 descC3 (initState 96)) :=
  c3_hidden_toggle_same_extraction true true 0 decNever fileC3 "p" 0 descC3
    (initState 96) 96 8 48 16 rfl rfl rfl rfl (by decide) rfl (by decide) rfl

/-! ### C5 -/

theorem processDecoded_merged_free (cfg : Config) (dec : Decode) (page : String)
    (j : Nat) (t : ImageInfo) (s : TileState) (raw : Bytes) (p : Nat) :
    (processDecoded cfg dec page j t s raw p).artifacts.filter isMergedArtifact =
      s.artifacts.filter isMergedArtifact := by
  unfold processDecoded
  cases hdec : dec raw with
  | none => simp [List.filter_append, isMergedArtifact]
  | some d =>
    obtain ⟨dx, dy⟩ := d
    by_cases hm : cfg.MergeImages = true <;>
      simp [hm, List.filter_append, isMergedArtifact]

theorem processTile_merged_free (cfg : Config) (dec : Decode) (f : Bytes)
    (page : String) (ty : ImageType) (j : Nat) (t : ImageInfo) (s s' : TileState)
    (h : processTile cfg dec f page ty j t s = .ok s') :
    s'.artifacts.filter isMergedArtifact = s.artifacts.filter isMergedArtifact := by
  unfold processTile at h
  split at h
  · injection h with h
    subst h
    rfl
  · split at h
    · exact Except.noConfusion h
    · injection h with h
      subst h
      exact processDecoded_merged_free cfg dec page j t s _ _

theorem processTiles_merged_free (cfg : Config) (dec : Decode) (f : Bytes)
    (page : String) (ty : ImageType) :
    ∀ (tiles : List (Nat × ImageInfo)) (s s' : TileState),
      processTiles cfg dec f page ty tiles s = .ok s' →
      s'.artifacts.filter isMergedArtifact = s.artifacts.filter isMergedArtifact := by
  intro tiles
  induction tiles with
  | nil =>
    intro s s' h
    simp only [processTiles] at h
    injection h with h
    subst h
    rfl
  | cons x rest ih =>
    intro s s' h
    obtain ⟨j, t⟩ := x
    simp only [processTiles] at h
    cases hstep : processTile cfg dec f page ty j t s with
    | error e => rw [hstep] at h; exact Except.noConfusion h
    | ok s1 =>
      rw [hstep] at h
      rw [ih s1 s' h, processTile_merged_free cfg dec f page ty j t s s1 hstep]

/-- C5 (counterexample): on `fileC5` under the all-layers sentinel, the
two tiles sit on layers 0 and 1 yet are composited onto one shared page
canvas and exported as a single artifact — not one canvas and one
artifact per (page, layer). -/
theorem c5_layers_share_one_canvas :
    artifactsOf (readDatabasePage ⟨true, -1, true⟩ decAlways fileC5 0 "p") =
      [.mergedPng "p" 512 512
        [⟨0, 0, 256, 256, 0⟩, ⟨256, 0, 256, 256, 1⟩]] ∧
    (imagesOf (readDatabasePage ⟨true, -1, true⟩ decAlways fileC5 0 "p")).map
        ImageInfo.layer = [0, 1] ∧
    (artifactsOf (readDatabasePage ⟨true, -1, true⟩ decAlways fileC5 0 "p")).length = 1 ∧
    (1 : Nat) ≠ 2 :=
  ⟨rfl, rfl, rfl, by decide⟩

/-- C5 (amended): in merge mode one canvas exists per page (all layers
share it), sized `width × height` from that page's viewer header; after
the page's tiles are processed the run exports exactly one canvas
artifact when the page received at least one decoded tile, and none
otherwise. -/
theorem c5_one_canvas_per_page (cfg : Config) (dec : Decode) (f : Bytes)
    (pos0 : Nat) (page : String) (r : PageResult)
    (h : readDatabasePage cfg dec f pos0 page = .ok r) :
    r.artifacts.filter isMergedArtifact =
      (if cfg.MergeImages ∧ r.state.hasAnyImageData then
        [.mergedPng page r.header.imageWidth r.header.imageHeight r.state.draws]
      else []) := by
  unfold readDatabasePage at h
  cases hpv : parseViewer f pos0 with
  | error e => rw [hpv] at h; exact Except.noConfusion h
  | ok pv =>
    rw [hpv] at h
    have hr : runViewer cfg dec f page pv = .ok r := h
    unfold runViewer at hr
    cases hrun : processTiles cfg dec f page pv.header.imageType pv.images.enum
        (initState pv.payloadStart) with
    | error e => rw [hrun] at hr; exact Except.noConfusion hr
    | ok sFin =>
      rw [hrun] at hr
      have hbase : sFin.artifacts.filter isMergedArtifact = [] := by
        have hmf := processTiles_merged_free cfg dec f page pv.header.imageType
          pv.images.enum (initState pv.payloadStart) sFin hrun
        simpa [initState] using hmf
      have hrr : r =
          { header := pv.header, images := pv.images, state := sFin
            artifacts := if cfg.MergeImages ∧ sFin.hasAnyImageData then
                sFin.artifacts ++
                  [.mergedPng page pv.header.imageWidth pv.header.imageHeight sFin.draws]
              else sFin.artifacts } :=
        (Except.ok.inj hr).symm
      subst hrr
      by_cases hc : cfg.MergeImages ∧ sFin.hasAnyImageData
      · simp [hc, List.filter_append, hbase, isMergedArtifact]
      · simp [hc, hbase]

/-- C5 (witness): the amended statement evaluated on the all-layers
merged run over `fileC5`. -/
theorem c5_one_canvas_per_page_witness :
    resultC5.artifacts.filter isMergedArtifact =
      (if (⟨true, -1, true⟩ : Config).MergeImages ∧ resultC5.state.hasAnyImageData then
        [.mergedPng "p" resultC5.header.imageWidth resultC5.header.imageHeight
          resultC5.state.draws]
      else []) :=
  c5_one_canvas_per_page ⟨true, -1, true⟩ decAlways fileC5 0 "p" resultC5 rfl

end PlayView
